import Mathlib

/-!
Verification development for the gen-chat streaming route
(`src/app/api/gen-chat/route.ts`): the system-prompt selector, subject
detection, request validation and authorization, the streaming
configuration, the step-completion persistence callback, the stream
transform stage, and the stream-error classifier, shallowly embedded as
executable Lean definitions, together with theorems about them.
-/

deriving instance DecidableEq for Except

namespace GenChat

/-! ## Basic string machinery

JavaScript `String.prototype.includes` is substring containment; we embed
it over the character lists of the strings. -/

/-- Is `needle` a leading segment of `hay` (on character lists)? -/
def startsWithList : List Char → List Char → Bool
  | _, [] => true
  | [], _ :: _ => false
  | a :: as, b :: bs => a == b && startsWithList as bs

/-- Does `needle` occur as a contiguous segment of `hay`?  Embeds
JavaScript substring containment on character lists. -/
def containsSubList (needle : List Char) : List Char → Bool
  | [] => startsWithList [] needle
  | h :: t => startsWithList (h :: t) needle || containsSubList needle t

/-- Embeds `s.includes(sub)` from JavaScript. -/
def includes (s sub : String) : Bool :=
  containsSubList sub.data s.data

/-- Embeds `String.prototype.toLowerCase` (on the ASCII range), mapping
`Char.toLower` over the characters. -/
def jsToLowerCase (s : String) : String :=
  String.mk (s.data.map Char.toLower)

/-! ## Data model for messages

A JavaScript message object has a `role` string and a `content` field that
may be a string, may be absent (`undefined`/`null`), or may hold a
non-string value; calling `.toLowerCase()` on the latter two throws a
`TypeError`. -/

/-- The `content` field of an incoming message object. -/
inductive Content where
  | str (s : String)
  | absent
  | nonString
deriving DecidableEq

/-- An incoming chat message (element of the `messages` array). -/
structure Msg where
  role : String
  content : Content
deriving DecidableEq

/-! ## Prompt constants

The prompt template strings are imported by the route from
`@/app/utils/systemPrompt`, a module that is not part of the provided
sources; only their names are visible at the import site.  Each constant
is therefore modelled as a distinct, non-empty placeholder string. -/

/-- Modelled from the spec: the fixed science prompt template (English);
`systemPrompt.ts` is not among the provided sources. -/
def SCIENCE_TEACHER_PROMPT : String := "SCIENCE_TEACHER_PROMPT"

/-- Modelled from the spec: the fixed math prompt template (English);
`systemPrompt.ts` is not among the provided sources. -/
def MATH_TEACHER_PROMPT : String := "MATH_TEACHER_PROMPT"

/-- Modelled from the spec: the fixed english-subject prompt template
(English); `systemPrompt.ts` is not among the provided sources. -/
def ENGLISH_TEACHER_PROMPT : String := "ENGLISH_TEACHER_PROMPT"

/-- Modelled from the spec: the fixed generic prompt template (English);
`systemPrompt.ts` is not among the provided sources. -/
def GENERIC_TEACHER_PROMPT : String := "GENERIC_TEACHER_PROMPT"

/-- Modelled from the spec: the fixed teacher-buddy prompt template
(language-invariant); `systemPrompt.ts` is not among the provided
sources. -/
def TEACHER_BUDDY_PROMPT : String := "TEACHER_BUDDY_PROMPT"

/-- Modelled from the spec: the fixed science prompt template (Hindi);
`systemPrompt.ts` is not among the provided sources. -/
def SCIENCE_TEACHER_PROMPT_HINDI : String := "SCIENCE_TEACHER_PROMPT_HINDI"

/-- Modelled from the spec: the fixed math prompt template (Hindi);
`systemPrompt.ts` is not among the provided sources. -/
def MATH_TEACHER_PROMPT_HINDI : String := "MATH_TEACHER_PROMPT_HINDI"

/-- Modelled from the spec: the fixed english-subject prompt template
(Hindi); `systemPrompt.ts` is not among the provided sources. -/
def ENGLISH_TEACHER_PROMPT_HINDI : String := "ENGLISH_TEACHER_PROMPT_HINDI"

/-- Modelled from the spec: the fixed generic prompt template (Hindi);
`systemPrompt.ts` is not among the provided sources. -/
def GENERIC_TEACHER_PROMPT_HINDI : String := "GENERIC_TEACHER_PROMPT_HINDI"

/-- Modelled from the spec: the fixed teaching-mode prompt template
(English); `systemPrompt.ts` is not among the provided sources. -/
def TEACHING_MODE_PROMPT : String := "TEACHING_MODE_PROMPT"

/-- Modelled from the spec: the fixed teaching-mode prompt template
(Hindi); `systemPrompt.ts` is not among the provided sources. -/
def TEACHING_MODE_PROMPT_HINDI : String := "TEACHING_MODE_PROMPT_HINDI"

/-- `type Subject = 'science' | 'math' | 'english' | 'generic'`. -/
inductive Subject where
  | science
  | math
  | english
  | generic
deriving DecidableEq

/-- `type Language = 'english' | 'hindi'`. -/
inductive Language where
  | english
  | hindi
deriving DecidableEq

/-- The fixed `prompts` table of the route: language and subject select a
base prompt template. -/
def prompts : Language → Subject → String
  | .english, .science => SCIENCE_TEACHER_PROMPT
  | .english, .math => MATH_TEACHER_PROMPT
  | .english, .english => ENGLISH_TEACHER_PROMPT
  | .english, .generic => GENERIC_TEACHER_PROMPT
  | .hindi, .science => SCIENCE_TEACHER_PROMPT_HINDI
  | .hindi, .math => MATH_TEACHER_PROMPT_HINDI
  | .hindi, .english => ENGLISH_TEACHER_PROMPT_HINDI
  | .hindi, .generic => GENERIC_TEACHER_PROMPT_HINDI

/-! ## Subject detection -/

/-- Embeds the `lastUserMessage` expression of `detectSubject`:
`messages.slice().reverse().find(m => m.role === 'user')?.content.toLowerCase() || ''`.
If no user-authored message exists, optional chaining short-circuits and
`|| ''` yields the empty string; if one exists but its `content` is absent
or not a string, `.toLowerCase()` throws a `TypeError`. -/
def lastUserContentLower (messages : List Msg) : Except String String :=
  match messages.reverse.find? (fun m => m.role == "user") with
  | none => .ok ""
  | some m =>
    match m.content with
    | .str s => .ok (jsToLowerCase s)
    | _ => .error "TypeError"

/-- Embeds `detectSubject` of the route: keyword matching on the
lowercased most recent user message, math checked first, then science,
then english, else generic. -/
def detectSubject (messages : List Msg) : Except String Subject := do
  let lastUserMessage ← lastUserContentLower messages
  if includes lastUserMessage "math" || includes lastUserMessage "calculation" then
    pure .math
  else if includes lastUserMessage "science" || includes lastUserMessage "experiment" then
    pure .science
  else if includes lastUserMessage "english" || includes lastUserMessage "writing" then
    pure .english
  else
    pure .generic

/-! ## System prompt selection -/

/-- The English tool-usage suffix appended to the base prompt for
students (the template literal in `getSystemPrompt`). -/
def ENGLISH_PROMPT_SUFFIX : String :=
  "\n\nYou can use various tools to enhance the learning experience:\n- Create quizzes\n- Generate educational images\n- Create concept visualizations\n- Generate mind maps\n\nDo not ever mention that you are using the tools to the user. Just start using them.\n\nAlways provide clear explanations and encourage active learning. Give short responses whenever possible."

/-- The Hindi tool-usage suffix appended to the base prompt for students
(the Hindi template literal in `getSystemPrompt`). -/
def HINDI_PROMPT_SUFFIX : String :=
  "\n\nआप सीखने के अनुभव को बढ़ाने के लिए विभिन्न उपकरणों का उपयोग कर सकते हैं:\n- इंटरैक्टिव गणित समस्याएँ उत्पन्न करें\n- क्विज़ बनाएँ\n- शैक्षिक छवियाँ उत्पन्न करें\n- अवधारणा विज़ुअलाइज़ेशन बनाएँ\n- माइंड मैप उत्पन्न करें\n\nकभी भी उपयोगकर्ता को यह न बताएं कि आप उपकरण का उपयोग कर रहे हैं। बस उनका उपयोग करना शुरू कर दें।\n\nहमेशा स्पष्ट व्याख्या प्रदान करें और सक्रिय सीखने को प्रोत्साहित करें। संभव हो तो छोटे उत्तर दें।"

/-- Embeds `getSystemPrompt(messages, userRole, language, teachingMode)`:
teacher-buddy for the Teacher role, the teaching-mode prompt when the
flag is set, and otherwise the subject-and-language indexed base prompt
with the per-language tool-usage suffix.  Propagates the `TypeError`
thrown by `detectSubject` on malformed content. -/
def getSystemPrompt (messages : List Msg) (userRole : Option String)
    (language : Language) (teachingMode : Bool) : Except String String :=
  if userRole = some "Teacher" then
    .ok TEACHER_BUDDY_PROMPT
  else if teachingMode then
    .ok (if language = .english then TEACHING_MODE_PROMPT else TEACHING_MODE_PROMPT_HINDI)
  else do
    let subject ← detectSubject messages
    let basePrompt := prompts language subject
    if language = .english then
      pure (basePrompt ++ ENGLISH_PROMPT_SUFFIX)
    else
      pure (basePrompt ++ HINDI_PROMPT_SUFFIX)

/-- Embeds the `system:` expression of the `streamText` call in `POST`:
`teachingMode ? (language === 'english' ? TEACHING_MODE_PROMPT : TEACHING_MODE_PROMPT_HINDI) : getSystemPrompt(cleanMessages, userRole, language)`.
Note that `POST` checks `teachingMode` before consulting
`getSystemPrompt`, and calls `getSystemPrompt` with its `teachingMode`
parameter left at its default `false`. -/
def systemForRequest (messages : List Msg) (userRole : Option String)
    (language : Language) (teachingMode : Bool) : Except String String :=
  if teachingMode then
    .ok (if language = .english then TEACHING_MODE_PROMPT else TEACHING_MODE_PROMPT_HINDI)
  else
    getSystemPrompt messages userRole language false

/-- Well-formedness of the message history for subject detection: the
most recent user-authored message, if any, has string content (the
condition under which `lastUserContentLower` does not throw). -/
def lastUserContentOk (messages : List Msg) : Bool :=
  match messages.reverse.find? (fun m => m.role == "user") with
  | none => true
  | some m =>
    match m.content with
    | .str _ => true
    | _ => false

/-! ## Request validation and authorization

`POST` checks, in order: the authenticated user (401), then — when a
thread id is supplied — thread existence (404) and ownership (403), then
that `messages` is a non-empty array (400).  Only the `status` and
`error` fields of the JSON error bodies are modelled. -/

/-- The authenticated user: id, email, and the `user_metadata.role`. -/
structure AuthUser where
  id : String
  email : Option String
  role : Option String
deriving DecidableEq

/-- An error response body, projected to its HTTP status and `error`
field. -/
structure ErrorResponse where
  status : Nat
  error : String
deriving DecidableEq

/-- Embeds the safety check on `messages`:
`!Array.isArray(messages) || messages.length === 0` yields the 400
response.  `none` models a body whose `messages` is not an array. -/
def messagesCheck (messages : Option (List Msg)) : Option ErrorResponse :=
  match messages with
  | none => some ⟨400, "Invalid messages array"⟩
  | some [] => some ⟨400, "Invalid messages array"⟩
  | some (_ :: _) => none

/-- Embeds the pre-stream phase of `POST`: the auth check (401 with
`error?.message || 'User not found'`), the thread lookup (404 when
`.single()` errors, 403 when the owner differs from the caller), and the
messages check (400).  `threadOwner` models the `chat_threads` table as a
map from thread id to owning user id. -/
def postPreStream (auth : Except String AuthUser)
    (threadOwner : String → Option String) (threadId : Option String)
    (messages : Option (List Msg)) : Option ErrorResponse :=
  match auth with
  | .error m => some ⟨401, if m = "" then "User not found" else m⟩
  | .ok user =>
    match threadId with
    | some tid =>
      match threadOwner tid with
      | none => some ⟨404, "Thread not found"⟩
      | some owner =>
        if owner ≠ user.id then some ⟨403, "Unauthorized thread access"⟩
        else messagesCheck messages
    | none => messagesCheck messages

/-- The route's outcome: either a JSON error response (no model call is
made) or the streaming success response with its headers. -/
inductive RouteResult where
  | errorRes (e : ErrorResponse)
  | streamRes (status : Nat) (contentType : String) (connection : String)
      (cacheControl : String)
deriving DecidableEq

/-- Embeds `POST` up to the returned response: a failing pre-stream check
short-circuits with its error response; otherwise the transformed stream
is returned with status 200 and the `text/event-stream`, `keep-alive`,
`no-cache` headers set in the `new Response(stream, ...)` call. -/
def postRoute (auth : Except String AuthUser)
    (threadOwner : String → Option String) (threadId : Option String)
    (messages : Option (List Msg)) : RouteResult :=
  match postPreStream auth threadOwner threadId messages with
  | some e => .errorRes e
  | none => .streamRes 200 "text/event-stream" "keep-alive" "no-cache"

/-! ## Streaming completion configuration -/

/-- The sampling-relevant arguments of the `streamText` call: system
prompt, temperature, `maxTokens`, `maxSteps`. -/
structure StreamConfig where
  system : String
  temperature : ℚ
  maxTokens : Nat
  maxSteps : Nat
deriving DecidableEq

/-- Embeds the `streamText` argument construction in `POST`: the system
prompt from `systemForRequest`, `temperature: teachingMode ? 0.3 : 0.5`,
`maxTokens: teachingMode ? 1500 : 500`, `maxSteps: 5`. -/
def streamTextConfig (messages : List Msg) (userRole : Option String)
    (language : Language) (teachingMode : Bool) : Except String StreamConfig := do
  let sys ← systemForRequest messages userRole language teachingMode
  pure ⟨sys, if teachingMode then 0.3 else 0.5,
    if teachingMode then 1500 else 500, 5⟩

/-! ## Step-completion persistence -/

/-- A tool call issued by the model in a step. -/
structure ToolCall where
  toolCallId : String
  toolName : String
  args : String
deriving DecidableEq

/-- A tool result delivered in the same step. -/
structure ToolResult where
  toolCallId : String
  result : Option String
deriving DecidableEq

/-- The `onStepFinish` callback argument: step text, tool calls, tool
results. -/
structure StepInfo where
  text : String
  toolCalls : List ToolCall
  toolResults : List ToolResult
deriving DecidableEq

/-- An element of the `toolCallsWithResults` array built in
`onStepFinish`. -/
structure ToolCallRecord where
  id : String
  tool : String
  parameters : String
  result : Option String
  state : Option String
deriving DecidableEq

/-- Embeds `x || undefined` for a string-or-undefined JavaScript value:
the empty string is falsy and collapses to `undefined`. -/
def jsOrUndefined (o : Option String) : Option String :=
  match o with
  | some s => if s = "" then none else some s
  | none => none

/-- Embeds `x || d` for a string-or-undefined JavaScript value with
string default `d`. -/
def jsOrString (o : Option String) (d : String) : String :=
  match o with
  | some s => if s = "" then d else s
  | none => d

/-- Embeds `x || d` for a number-or-undefined JavaScript value with
numeric default `d` (`0` is falsy). -/
def jsOrNat (o : Option Nat) (d : Nat) : Nat :=
  match o with
  | some n => if n = 0 then d else n
  | none => d

/-- Embeds the `toolCallsWithResults` mapping of `onStepFinish`: each
tool call is paired with `toolResults?.find(r => r.toolCallId === call.toolCallId)`;
its `result` is `result?.result || undefined` and its `state` is
`result ? 'result' : 'pending'`. -/
def toolCallsWithResults (step : StepInfo) : List ToolCallRecord :=
  step.toolCalls.map fun call =>
    let result := step.toolResults.find? (fun r => r.toolCallId == call.toolCallId)
    ⟨call.toolCallId, call.toolName, call.args,
      jsOrUndefined (result.bind (fun r => r.result)),
      some (if result.isSome then "result" else "pending")⟩

/-- A row of the `tool_outputs` insert built by `saveToolOutputs`. -/
structure ToolOutputRow where
  message_id : String
  tool_name : String
  tool_call_id : String
  parameters : String
  result : Option String
  state : String
deriving DecidableEq

/-- Embeds the `outputs` mapping of `saveToolOutputs`, including
`state: call.state || 'pending'`. -/
def outputsOf (messageId : String) (toolCalls : List ToolCallRecord) :
    List ToolOutputRow :=
  toolCalls.map fun call =>
    ⟨messageId, call.tool, call.id, call.parameters, call.result,
      jsOrString call.state "pending"⟩

/-- A persistence operation attempted against the store. -/
inductive DbOp where
  | insertMessage (id : String) (thread_id : Option String) (role : String)
      (content : String)
  | insertToolOutputs (rows : List ToolOutputRow)
deriving DecidableEq

/-- The store's behaviour during one `onStepFinish` invocation: the error
(if any) each insert reports. -/
structure DbBehavior where
  messageInsertError : Option String
  toolOutputsInsertError : Option String
deriving DecidableEq

/-- Embeds `saveToolOutputs`: the insert is attempted; a reported error
is logged and thrown, but the surrounding `catch` logs it and does not
rethrow, so the function always returns normally.  Returns the outcome
together with the attempted operation. -/
def saveToolOutputs (db : DbBehavior) (messageId : String)
    (toolCalls : List ToolCallRecord) : Except String Unit × List DbOp :=
  let outputs := outputsOf messageId toolCalls
  let attempt : Except String Unit :=
    match db.toolOutputsInsertError with
    | some e => .error e
    | none => .ok ()
  match attempt with
  | .error _ => (.ok (), [DbOp.insertToolOutputs outputs])
  | .ok _ => (.ok (), [DbOp.insertToolOutputs outputs])

/-- Embeds `onStepFinish`: steps without tool calls return immediately;
otherwise the assistant message is inserted first (a reported error is
logged and the handler returns, skipping the tool outputs), then
`saveToolOutputs` runs; the outer `catch` swallows any thrown error, so
the handler always returns normally.  Returns the outcome together with
the list of attempted persistence operations, in order. -/
def onStepFinishRun (db : DbBehavior) (threadId : Option String)
    (messageId : String) (step : StepInfo) : Except String Unit × List DbOp :=
  if step.toolCalls.isEmpty then (.ok (), [])
  else
    let msgOp := DbOp.insertMessage messageId threadId "assistant" step.text
    match db.messageInsertError with
    | some _ => (.ok (), [msgOp])
    | none =>
      match saveToolOutputs db messageId (toolCallsWithResults step) with
      | (.error _, toolOps) => (.ok (), msgOp :: toolOps)
      | (.ok _, toolOps) => (.ok (), msgOp :: toolOps)

/-- A sequential stream driver: the handler runs once per step, and a
handler error aborts the stream.  Returns whether the stream completed
and how many steps were processed. -/
def runStream {α : Type} (handler : α → Except String Unit) :
    List α → Bool × Nat
  | [] => (true, 0)
  | s :: rest =>
    match handler s with
    | .error _ => (false, 0)
    | .ok _ =>
      let (completed, n) := runStream handler rest
      (completed, n + 1)

/-- One step of a request's stream: the step data, the store behaviour
during its callback, and the freshly generated message id. -/
structure StepRun where
  step : StepInfo
  db : DbBehavior
  messageId : String
deriving DecidableEq

/-- All persistence operations attempted over a request: the
concatenation of each step callback's attempted operations. -/
def requestPersistenceOps (threadId : Option String) (runs : List StepRun) :
    List DbOp :=
  runs.foldr (fun r acc => (onStepFinishRun r.db threadId r.messageId r.step).2 ++ acc) []

/-! ## Stream transform stage -/

/-- An event of the stream as seen by the transform: a `type` tag and a
payload. -/
structure Chunk where
  type : String
  payload : String
deriving DecidableEq

/-- The fixed apology text enqueued in place of an error chunk. -/
def APOLOGY_TEXT : String :=
  "\n\nI apologize, but I encountered an issue while processing your request. Please try again or rephrase your question.\n\n"

/-- Embeds the `transform` callback of the `TransformStream`: an event
whose `type` is `'error'` is replaced by the apology text event; every
other event is forwarded unchanged; `controller.error()` is never
called. -/
def transformChunk (chunk : Chunk) : Chunk :=
  if chunk.type == "error" then ⟨"text", APOLOGY_TEXT⟩ else chunk

/-- The transform stage over a whole event stream: every event is
processed, none terminates the stream. -/
def transformStreamRun (chunks : List Chunk) : List Chunk :=
  chunks.map transformChunk

/-! ## Stream-error classification -/

/-- A token-usage snapshot. -/
structure Usage where
  promptTokens : Nat
  completionTokens : Nat
deriving DecidableEq

/-- The structured payload embedded in a stream-finish error message. -/
structure StreamFinishPayload where
  finishReason : Option String
  usage : Option Usage
  timestamp : Option String
deriving DecidableEq

/-- The shape of a thrown JavaScript error value, as the classifier
distinguishes it: a plain `Error`, a `TypeError`, an `APICallError`
(carrying `statusCode` and `isRetryable`), or a non-`Error` value. -/
inductive ErrClass where
  | plainError
  | typeError
  | apiCallError (statusCode : Option Nat) (isRetryable : Bool)
  | nonError
deriving DecidableEq

/-- A thrown value: its class and its `message` string. -/
structure JsErr where
  cls : ErrClass
  message : String
deriving DecidableEq

/-- `error instanceof Error` (true for `TypeError` and `APICallError`,
which extend `Error`). -/
def instanceofError (e : JsErr) : Bool :=
  match e.cls with
  | .nonError => false
  | _ => true

/-- Embeds the `isStreamFinishError` type guard:
`error instanceof Error && error.message.includes('STREAM_FINISH_ERROR')`. -/
def isStreamFinishError (e : JsErr) : Bool :=
  instanceofError e && includes e.message "STREAM_FINISH_ERROR"

/-- Embeds the `isTypeError` type guard. -/
def isTypeError (e : JsErr) : Bool :=
  match e.cls with
  | .typeError => true
  | _ => false

/-- Embeds the `isAPICallError` type guard. -/
def isAPICallError (e : JsErr) : Bool :=
  match e.cls with
  | .apiCallError _ _ => true
  | _ => false

/-- Embeds `errorMessage.indexOf('\x7b')` as an optional index. -/
def firstBraceIndex (s : String) : Option Nat :=
  s.data.findIdx? (fun c => c == '\x7b')

/-- A classified stream-error response body: status, `error`, `code`,
`recoverable`, `details`, `message`, and the optional structured payload
fields. -/
structure ClassifiedResponse where
  status : Nat
  error : String
  code : String
  recoverable : Option Bool
  details : Option String
  message : Option String
  finishReason : Option String
  usage : Option Usage
  timestamp : Option String
deriving DecidableEq

/-- The classifier branches tried after the stream-finish-error branch:
`TypeError` → `STREAM_TYPE_ERROR`; `APICallError` → `STREAM_AI_ERROR`
with `statusCode || 500`; a recorded `streamError` →
`STREAM_REPORTED_ERROR`; otherwise the generic `STREAM_ERROR`. -/
def classifyStreamErrorRest (streamErrorRecorded : Bool) (e : JsErr) :
    ClassifiedResponse :=
  if isTypeError e then
    ⟨500, "Stream processing error", "STREAM_TYPE_ERROR", some false,
      some e.message, none, none, none, none⟩
  else
    match e.cls with
    | .apiCallError statusCode isRetryable =>
      ⟨jsOrNat statusCode 500, "AI API error during streaming",
        "STREAM_AI_ERROR", some isRetryable, some e.message, none, none,
        none, none⟩
    | _ =>
      if streamErrorRecorded then
        ⟨500, "AI Stream Error", "STREAM_REPORTED_ERROR", some true,
          some "The AI stream reported an error during processing", none,
          none, none, none⟩
      else
        ⟨500, "Stream error", "STREAM_ERROR", some true, some e.message,
          some "Please try your request again.", none, none, none⟩

/-- Embeds the inner `catch (streamErr)` classifier of `POST`.  When the
error passes `isStreamFinishError` and its message has a brace, the
trailing fragment is parsed: on success the structured payload response
is returned (`finishReason || 'error'`, `usage || zero`,
`timestamp || now`); a parse failure is caught and the fallback response
carrying the raw message is returned.  When the message has no brace, the
guarded block falls through to the remaining branches. -/
def classifyStreamError (parseJson : String → Option StreamFinishPayload)
    (now : String) (streamErrorRecorded : Bool) (e : JsErr) :
    ClassifiedResponse :=
  if isStreamFinishError e then
    match firstBraceIndex e.message with
    | some i =>
      match parseJson (String.mk (e.message.data.drop i)) with
      | some errorData =>
        ⟨500, "AI Stream Error", "STREAM_FINISH_ERROR", some true,
          some "The AI stream ended unexpectedly", none,
          some (jsOrString errorData.finishReason "error"),
          some (errorData.usage.getD ⟨0, 0⟩),
          some (jsOrString errorData.timestamp now)⟩
      | none =>
        ⟨500, "AI Stream Error", "STREAM_FINISH_ERROR", some true,
          some "The AI stream ended unexpectedly (parsing error)",
          some e.message, none, none, none⟩
    | none => classifyStreamErrorRest streamErrorRecorded e
  else classifyStreamErrorRest streamErrorRecorded e

/-! ## Helper lemmas -/

/-- When the most recent user message is well-formed,
`lastUserContentLower` does not throw. -/
theorem lastUserContentLower_ok_of_contentOk (messages : List Msg)
    (h : lastUserContentOk messages = true) :
    ∃ l, lastUserContentLower messages = .ok l := by
  unfold lastUserContentOk at h
  unfold lastUserContentLower
  cases hf : messages.reverse.find? (fun m => m.role == "user") with
  | none => exact ⟨"", rfl⟩
  | some m =>
    rw [hf] at h
    simp only [] at h
    cases hc : m.content with
    | str s => exact ⟨jsToLowerCase s, by simp only []; rw [hc]⟩
    | absent => rw [hc] at h; cases h
    | nonString => rw [hc] at h; cases h

/-- `find?` succeeds exactly when some element satisfies the predicate
(Bool form). -/
theorem find?_isSome_eq_any {α : Type} (p : α → Bool) (l : List α) :
    (l.find? p).isSome = l.any p := by
  induction l with
  | nil => rfl
  | cons a t ih =>
    cases hpa : p a <;> simp [List.find?, hpa, ih]

/-! ## Theorems for the claims -/

/-- Claim C1, counterexample: a request from a Teacher with the
teaching-mode flag set selects the teaching-mode prompt, not the fixed
teacher-buddy prompt — `POST` checks `teachingMode` before consulting
`getSystemPrompt`, so the Teacher role does not win regardless of the
flag. -/
theorem teacher_with_teaching_mode_gets_teaching_prompt :
    systemForRequest [] (some "Teacher") .english true = .ok TEACHING_MODE_PROMPT ∧
    TEACHING_MODE_PROMPT ≠ TEACHER_BUDDY_PROMPT :=
  ⟨rfl, by decide⟩

/-- Claim C1 (amended): prompt selection is a deterministic function of
role, language, teaching-mode flag and message history; for every
request with the Teacher role and teaching mode off the selected prompt
is the fixed teacher-buddy prompt (regardless of language and history);
and inside `getSystemPrompt` the Teacher role always wins. -/
theorem prompt_selection_deterministic_teacher_wins_off_teaching :
    (∀ (m₁ m₂ : List Msg) (r₁ r₂ : Option String) (l₁ l₂ : Language) (t₁ t₂ : Bool),
      m₁ = m₂ → r₁ = r₂ → l₁ = l₂ → t₁ = t₂ →
      systemForRequest m₁ r₁ l₁ t₁ = systemForRequest m₂ r₂ l₂ t₂) ∧
    (∀ (messages : List Msg) (language : Language),
      systemForRequest messages (some "Teacher") language false = .ok TEACHER_BUDDY_PROMPT) ∧
    (∀ (messages : List Msg) (language : Language) (teachingMode : Bool),
      getSystemPrompt messages (some "Teacher") language teachingMode = .ok TEACHER_BUDDY_PROMPT) := by
  refine ⟨?_, ?_, ?_⟩
  · intro m₁ m₂ r₁ r₂ l₁ l₂ t₁ t₂ hm hr hl ht
    rw [hm, hr, hl, ht]
  · intro messages language
    simp [systemForRequest, getSystemPrompt]
  · intro messages language teachingMode
    simp [getSystemPrompt]

/-- Witness for the amended claim C1 at concrete inputs. -/
theorem prompt_selection_deterministic_teacher_wins_off_teaching_witness :
    systemForRequest [] none .english false = systemForRequest [] none .english false ∧
    systemForRequest [] (some "Teacher") .hindi false = .ok TEACHER_BUDDY_PROMPT ∧
    getSystemPrompt [] (some "Teacher") .english true = .ok TEACHER_BUDDY_PROMPT :=
  ⟨prompt_selection_deterministic_teacher_wins_off_teaching.1
      [] [] none none .english .english false false rfl rfl rfl rfl,
   prompt_selection_deterministic_teacher_wins_off_teaching.2.1 [] .hindi,
   prompt_selection_deterministic_teacher_wins_off_teaching.2.2 [] .english true⟩

/-- Claim C9, counterexample: for a student request (not teaching mode)
whose most recent user message has no string content, the selector
throws a `TypeError` rather than returning a prompt. -/
theorem getSystemPrompt_throws_on_absent_content :
    getSystemPrompt [⟨"user", Content.absent⟩] none .english false = .error "TypeError" := rfl

/-- Claim C9 (amended): the selector returns a non-empty prompt string
for every role, language, teaching-mode flag and message history,
provided the role is Teacher, or teaching mode is on, or the most recent
user-authored message (if any) has string content; in the remaining case
a `TypeError` escapes (see the counterexample). -/
theorem getSystemPrompt_total_on_wellformed :
    ∀ (messages : List Msg) (userRole : Option String) (language : Language)
      (teachingMode : Bool),
      (userRole = some "Teacher" ∨ teachingMode = true ∨ lastUserContentOk messages = true) →
      ∃ s, getSystemPrompt messages userRole language teachingMode = .ok s ∧ s ≠ "" := by
  intro messages userRole language teachingMode h
  by_cases hr : userRole = some "Teacher"
  · exact ⟨TEACHER_BUDDY_PROMPT, by simp [getSystemPrompt, hr], by decide⟩
  · by_cases ht : teachingMode = true
    · refine ⟨if language = .english then TEACHING_MODE_PROMPT else TEACHING_MODE_PROMPT_HINDI, ?_, ?_⟩
      · simp [getSystemPrompt, hr, ht]
      · cases language
        · rw [if_pos rfl]; decide
        · rw [if_neg (by decide)]; decide
    · have hok : lastUserContentOk messages = true := by
        rcases h with h | h | h
        · exact absurd h hr
        · exact absurd h ht
        · exact h
      obtain ⟨l, hl⟩ := lastUserContentLower_ok_of_contentOk messages hok
      obtain ⟨subj, hsubj⟩ : ∃ subj, detectSubject messages = .ok subj := by
        unfold detectSubject
        rw [hl]
        simp only [Bind.bind, Except.bind]
        split
        · exact ⟨.math, rfl⟩
        · split
          · exact ⟨.science, rfl⟩
          · split
            · exact ⟨.english, rfl⟩
            · exact ⟨.generic, rfl⟩
      unfold getSystemPrompt
      rw [if_neg hr, if_neg ht]
      rw [hsubj]
      simp only [Bind.bind, Except.bind]
      cases language
      · exact ⟨prompts .english subj ++ ENGLISH_PROMPT_SUFFIX, by rw [if_pos rfl]; rfl,
          by cases subj <;> decide⟩
      · exact ⟨prompts .hindi subj ++ HINDI_PROMPT_SUFFIX, by rw [if_neg (by decide)]; rfl,
          by cases subj <;> decide⟩

/-- Witness for the amended claim C9 at a concrete input. -/
theorem getSystemPrompt_total_on_wellformed_witness :
    ∃ s, getSystemPrompt [⟨"user", Content.str "hello"⟩] none .english false = .ok s ∧ s ≠ "" :=
  getSystemPrompt_total_on_wellformed [⟨"user", Content.str "hello"⟩] none .english false
    (Or.inr (Or.inr rfl))

/-- Claim C6: subject detection reads only the lowercased most recent
user-authored message; math keywords are checked first (so math wins
over science), then science, then english; with no keyword the subject
is generic; and any two histories with the same (lowercased) last user
content detect the same subject. -/
theorem detectSubject_keyword_table :
    ∀ (messages : List Msg) (l : String),
      lastUserContentLower messages = .ok l →
      (((includes l "math" || includes l "calculation") = true →
          detectSubject messages = .ok .math) ∧
       ((includes l "math" || includes l "calculation") = false →
        (includes l "science" || includes l "experiment") = true →
          detectSubject messages = .ok .science) ∧
       ((includes l "math" || includes l "calculation") = false →
        (includes l "science" || includes l "experiment") = false →
        (includes l "english" || includes l "writing") = true →
          detectSubject messages = .ok .english) ∧
       ((includes l "math" || includes l "calculation") = false →
        (includes l "science" || includes l "experiment") = false →
        (includes l "english" || includes l "writing") = false →
          detectSubject messages = .ok .generic) ∧
       (∀ (m : Msg) (s : String),
          messages.reverse.find? (fun x => x.role == "user") = some m →
          m.content = .str s → l = jsToLowerCase s) ∧
       (∀ messages' : List Msg,
          lastUserContentLower messages' = .ok l →
          detectSubject messages' = detectSubject messages)) := by
  intro messages l h
  refine ⟨?_, ?_, ?_, ?_, ?_, ?_⟩
  · intro hm
    unfold detectSubject
    rw [h]
    simp [Bind.bind, Except.bind, hm, Pure.pure, Except.pure]
  · intro hm hs
    unfold detectSubject
    rw [h]
    simp [Bind.bind, Except.bind, hm, hs, Pure.pure, Except.pure]
  · intro hm hs he
    unfold detectSubject
    rw [h]
    simp [Bind.bind, Except.bind, hm, hs, he, Pure.pure, Except.pure]
  · intro hm hs he
    unfold detectSubject
    rw [h]
    simp [Bind.bind, Except.bind, hm, hs, he, Pure.pure, Except.pure]
  · intro m s hf hc
    unfold lastUserContentLower at h
    rw [hf] at h
    simp only [] at h
    rw [hc] at h
    injection h with h'
    exact h'.symm
  · intro messages' h'
    unfold detectSubject
    rw [h, h']

/-- Witness for claim C6 at concrete inputs: a last user message
containing both MATH and science (uppercased) detects math. -/
theorem detectSubject_keyword_table_witness :
    detectSubject [⟨"assistant", Content.str "welcome"⟩,
      ⟨"user", Content.str "MATH and science please"⟩] = .ok .math ∧
    detectSubject [⟨"user", Content.str "hello there"⟩] = .ok .generic :=
  ⟨(detectSubject_keyword_table
      [⟨"assistant", Content.str "welcome"⟩, ⟨"user", Content.str "MATH and science please"⟩]
      "math and science please" (by decide)).1 (by decide),
   ((detectSubject_keyword_table [⟨"user", Content.str "hello there"⟩]
      "hello there" (by decide)).2.2.2.1) (by decide) (by decide) (by decide)⟩

/-- Claim C5: with teaching mode on, the streaming call is configured
with the fixed per-language teaching-mode prompt, temperature 0.3 and
maxTokens 1500; the teaching-mode temperature is lower (0.3 < 0.5) and
its token budget higher (1500 > 500); with teaching mode off the normal
temperature 0.5 and budget 500 are used. -/
theorem streamTextConfig_teaching_mode :
    ∀ (messages : List Msg) (userRole : Option String) (language : Language),
      streamTextConfig messages userRole language true =
        .ok ⟨(if language = .english then TEACHING_MODE_PROMPT else TEACHING_MODE_PROMPT_HINDI),
          0.3, 1500, 5⟩ ∧
      (0.3 : ℚ) < 0.5 ∧ (500 : ℕ) < 1500 ∧
      (∀ cfg : StreamConfig,
        streamTextConfig messages userRole language false = .ok cfg →
        cfg.temperature = 0.5 ∧ cfg.maxTokens = 500) := by
  intro messages userRole language
  refine ⟨rfl, by norm_num, by norm_num, ?_⟩
  intro cfg hcfg
  unfold streamTextConfig at hcfg
  cases hs : systemForRequest messages userRole language false with
  | error e =>
    rw [hs] at hcfg
    exact absurd hcfg (by simp [Bind.bind, Except.bind])
  | ok s =>
    rw [hs] at hcfg
    simp only [Bind.bind, Except.bind, Pure.pure, Except.pure, Except.ok.injEq] at hcfg
    rw [← hcfg]
    simp

/-- Witness for claim C5 at concrete inputs. -/
theorem streamTextConfig_teaching_mode_witness :
    streamTextConfig [] none .hindi true = .ok ⟨TEACHING_MODE_PROMPT_HINDI, 0.3, 1500, 5⟩ ∧
    ((⟨GENERIC_TEACHER_PROMPT ++ ENGLISH_PROMPT_SUFFIX, 0.5, 500, 5⟩ : StreamConfig).temperature = 0.5 ∧
     (⟨GENERIC_TEACHER_PROMPT ++ ENGLISH_PROMPT_SUFFIX, 0.5, 500, 5⟩ : StreamConfig).maxTokens = 500) :=
  ⟨by simpa using (streamTextConfig_teaching_mode [] none .hindi).1,
   (streamTextConfig_teaching_mode [] none .english).2.2.2
     ⟨GENERIC_TEACHER_PROMPT ++ ENGLISH_PROMPT_SUFFIX, 0.5, 500, 5⟩ rfl⟩

/-- Claim C4: in order and all before any model call — a missing
authenticated identity yields 401 with a non-empty `error`; a supplied
thread id that matches no thread yields 404; a thread owned by a
different user yields 403; and, with those checks passed, a message list
that is not a non-empty array yields 400.  Every such outcome is an
`errorRes`, so no streaming (model call) happens. -/
theorem postRoute_validation_order :
    (∀ (m : String) (threadOwner : String → Option String) (threadId : Option String)
       (messages : Option (List Msg)),
       ∃ e, postRoute (.error m) threadOwner threadId messages = .errorRes e ∧
         e.status = 401 ∧ e.error ≠ "") ∧
    (∀ (user : AuthUser) (threadOwner : String → Option String) (tid : String)
       (messages : Option (List Msg)),
       threadOwner tid = none →
       postRoute (.ok user) threadOwner (some tid) messages =
         .errorRes ⟨404, "Thread not found"⟩) ∧
    (∀ (user : AuthUser) (threadOwner : String → Option String) (tid owner : String)
       (messages : Option (List Msg)),
       threadOwner tid = some owner → owner ≠ user.id →
       postRoute (.ok user) threadOwner (some tid) messages =
         .errorRes ⟨403, "Unauthorized thread access"⟩) ∧
    (∀ (user : AuthUser) (threadOwner : String → Option String) (threadId : Option String)
       (messages : Option (List Msg)),
       (threadId = none ∨ ∃ tid, threadId = some tid ∧ threadOwner tid = some user.id) →
       (messages = none ∨ messages = some []) →
       postRoute (.ok user) threadOwner threadId messages =
         .errorRes ⟨400, "Invalid messages array"⟩) := by
  refine ⟨?_, ?_, ?_, ?_⟩
  · intro m tw tid msgs
    refine ⟨⟨401, if m = "" then "User not found" else m⟩, rfl, rfl, ?_⟩
    by_cases hm : m = ""
    · rw [if_pos hm]; decide
    · rw [if_neg hm]; exact hm
  · intro user tw tid msgs h
    simp [postRoute, postPreStream, h]
  · intro user tw tid owner msgs h hne
    simp [postRoute, postPreStream, h, hne]
  · intro user tw tid msgs hthread hmsgs
    have hcheck : messagesCheck msgs = some ⟨400, "Invalid messages array"⟩ := by
      rcases hmsgs with h | h <;> rw [h] <;> rfl
    rcases hthread with h | ⟨t, ht, howner⟩
    · rw [h]
      simp [postRoute, postPreStream, hcheck]
    · rw [ht]
      simp [postRoute, postPreStream, howner, hcheck]

/-- Witness for claim C4 at concrete inputs, exercising each branch. -/
theorem postRoute_validation_order_witness :
    (∃ e, postRoute (.error "boom") (fun _ => none) none none = .errorRes e ∧
      e.status = 401 ∧ e.error ≠ "") ∧
    postRoute (.ok ⟨"u1", none, none⟩) (fun _ => none) (some "t1")
      (some [⟨"user", Content.str "hi"⟩]) = .errorRes ⟨404, "Thread not found"⟩ ∧
    postRoute (.ok ⟨"u1", none, none⟩) (fun _ => some "u2") (some "t1")
      (some [⟨"user", Content.str "hi"⟩]) = .errorRes ⟨403, "Unauthorized thread access"⟩ ∧
    postRoute (.ok ⟨"u1", none, none⟩) (fun _ => none) none (some []) =
      .errorRes ⟨400, "Invalid messages array"⟩ :=
  ⟨postRoute_validation_order.1 "boom" (fun _ => none) none none,
   postRoute_validation_order.2.1 ⟨"u1", none, none⟩ (fun _ => none) "t1"
     (some [⟨"user", Content.str "hi"⟩]) rfl,
   postRoute_validation_order.2.2.1 ⟨"u1", none, none⟩ (fun _ => some "u2") "t1" "u2"
     (some [⟨"user", Content.str "hi"⟩]) rfl (by decide),
   postRoute_validation_order.2.2.2 ⟨"u1", none, none⟩ (fun _ => none) none (some [])
     (Or.inl rfl) (Or.inr rfl)⟩

/-- Claim C2, counterexample: with no thread id supplied, a step that
produced a tool call still attempts persistence — the assistant-message
insert (with a null thread reference) and the tool-outputs insert are
both attempted, so the operation list is non-empty. -/
theorem no_thread_id_persistence_attempt_counterexample :
    requestPersistenceOps none
      [⟨⟨"step text", [⟨"call-1", "createQuiz", "params"⟩], []⟩, ⟨none, none⟩, "msg-1"⟩] =
      [DbOp.insertMessage "msg-1" none "assistant" "step text",
       DbOp.insertToolOutputs [⟨"msg-1", "createQuiz", "call-1", "params", none, "pending"⟩]] ∧
    requestPersistenceOps none
      [⟨⟨"step text", [⟨"call-1", "createQuiz", "params"⟩], []⟩, ⟨none, none⟩, "msg-1"⟩] ≠ [] :=
  ⟨rfl, by decide⟩

/-- Claim C2 (amended): an authenticated request with no thread id and a
well-formed non-empty message list yields the 200 `text/event-stream`
response; persistence is attempted only by step-completion callbacks of
steps that produced at least one tool call — the absence of a thread id
does not by itself prevent persistence attempts. -/
theorem no_thread_id_stream_response_and_gated_persistence :
    ∀ (user : AuthUser) (threadOwner : String → Option String) (messages : List Msg),
      messages ≠ [] →
      postRoute (.ok user) threadOwner none (some messages) =
        .streamRes 200 "text/event-stream" "keep-alive" "no-cache" ∧
      ∀ runs : List StepRun, (∀ r ∈ runs, r.step.toolCalls = []) →
        requestPersistenceOps none runs = [] := by
  intro user tw messages hm
  constructor
  · cases messages with
    | nil => exact absurd rfl hm
    | cons a t => rfl
  · intro runs hall
    induction runs with
    | nil => rfl
    | cons r rest ih =>
      have h1 : r.step.toolCalls = [] := hall r (List.mem_cons_self r rest)
      have h2 := ih (fun x hx => hall x (List.mem_cons_of_mem r hx))
      have hhead : (onStepFinishRun r.db none r.messageId r.step).2 = [] := by
        unfold onStepFinishRun
        rw [h1]
        rfl
      unfold requestPersistenceOps at h2 ⊢
      simp only [List.foldr_cons]
      rw [hhead, h2]
      rfl

/-- Witness for the amended claim C2 at concrete inputs. -/
theorem no_thread_id_stream_response_and_gated_persistence_witness :
    postRoute (.ok ⟨"u1", none, none⟩) (fun _ => none) none
      (some [⟨"user", Content.str "explain fractions"⟩]) =
      .streamRes 200 "text/event-stream" "keep-alive" "no-cache" ∧
    requestPersistenceOps none [⟨⟨"hello", [], []⟩, ⟨none, none⟩, "m1"⟩] = [] :=
  ⟨(no_thread_id_stream_response_and_gated_persistence ⟨"u1", none, none⟩ (fun _ => none)
      [⟨"user", Content.str "explain fractions"⟩] (by decide)).1,
   (no_thread_id_stream_response_and_gated_persistence ⟨"u1", none, none⟩ (fun _ => none)
      [⟨"user", Content.str "explain fractions"⟩] (by decide)).2
      [⟨⟨"hello", [], []⟩, ⟨none, none⟩, "m1"⟩]
      (by intro x hx; simp only [List.mem_singleton] at hx; subst hx; rfl)⟩

/-- Claim C3: the transform stage never terminates the outbound stream
on an in-stream error event — every event is processed (the output has
one event per input event), an event of type `error` is replaced by the
fixed apology text event, and no error event is propagated. -/
theorem transform_substitutes_error_events_and_continues :
    ∀ chunks : List Chunk,
      (transformStreamRun chunks).length = chunks.length ∧
      (∀ c : Chunk, c.type = "error" → transformChunk c = ⟨"text", APOLOGY_TEXT⟩) ∧
      (∀ d ∈ transformStreamRun chunks, d.type ≠ "error") := by
  intro chunks
  refine ⟨by simp [transformStreamRun], ?_, ?_⟩
  · intro c hc
    simp [transformChunk, hc]
  · intro d hd
    unfold transformStreamRun at hd
    rw [List.mem_map] at hd
    obtain ⟨c, hc, rfl⟩ := hd
    unfold transformChunk
    by_cases h : (c.type == "error") = true
    · rw [if_pos h]; decide
    · rw [if_neg h]
      simpa using h

/-- Witness for claim C3 at concrete inputs. -/
theorem transform_substitutes_error_events_and_continues_witness :
    (transformStreamRun [⟨"error", "boom"⟩, ⟨"text", "hello"⟩]).length = 2 ∧
    transformChunk ⟨"error", "boom"⟩ = ⟨"text", APOLOGY_TEXT⟩ ∧
    (⟨"text", "hello"⟩ : Chunk).type ≠ "error" :=
  ⟨by simpa using
      (transform_substitutes_error_events_and_continues [⟨"error", "boom"⟩, ⟨"text", "hello"⟩]).1,
   (transform_substitutes_error_events_and_continues [⟨"error", "boom"⟩, ⟨"text", "hello"⟩]).2.1
     ⟨"error", "boom"⟩ rfl,
   (transform_substitutes_error_events_and_continues [⟨"error", "boom"⟩, ⟨"text", "hello"⟩]).2.2
     ⟨"text", "hello"⟩ (by decide)⟩

/-- Claim C7: the step-completion callback never propagates an error —
whatever the store reports for the message insert and the tool-outputs
insert, the handler returns normally, so a sequential stream driver
processes every step and the stream completes. -/
theorem onStepFinish_failures_swallowed_stream_completes :
    (∀ (db : DbBehavior) (threadId : Option String) (messageId : String) (step : StepInfo),
       (onStepFinishRun db threadId messageId step).1 = .ok ()) ∧
    (∀ (threadId : Option String) (runs : List StepRun),
       runStream (fun r => (onStepFinishRun r.db threadId r.messageId r.step).1) runs =
         (true, runs.length)) := by
  have hok : ∀ (db : DbBehavior) (threadId : Option String) (messageId : String)
      (step : StepInfo), (onStepFinishRun db threadId messageId step).1 = .ok () := by
    intro db tid mid step
    rcases db with ⟨me, te⟩
    unfold onStepFinishRun
    split
    · rfl
    · cases me with
      | some e => rfl
      | none =>
        unfold saveToolOutputs
        cases te <;> rfl
  refine ⟨hok, ?_⟩
  intro tid runs
  induction runs with
  | nil => rfl
  | cons r rest ih =>
    unfold runStream
    rw [hok r.db tid r.messageId r.step, ih]
    simp

/-- Claim C10: per-step persistence is ordered and gated — when the
assistant-message insert reports an error, no tool-outputs insert is
attempted; when it succeeds (and the step has tool calls), the attempted
operations are exactly the message insert followed by the tool-outputs
insert; and each persisted tool-invocation row carries state `result`
exactly when a matching tool result was present in the step, else
`pending`. -/
theorem onStepFinish_persistence_gated_and_states :
    ∀ (db : DbBehavior) (threadId : Option String) (messageId : String) (step : StepInfo),
      (db.messageInsertError.isSome = true →
        ∀ rows, DbOp.insertToolOutputs rows ∉ (onStepFinishRun db threadId messageId step).2) ∧
      (db.messageInsertError = none → step.toolCalls ≠ [] →
        (onStepFinishRun db threadId messageId step).2 =
          [DbOp.insertMessage messageId threadId "assistant" step.text,
           DbOp.insertToolOutputs (outputsOf messageId (toolCallsWithResults step))]) ∧
      (∀ row ∈ outputsOf messageId (toolCallsWithResults step),
        row.state = if step.toolResults.any (fun r => r.toolCallId == row.tool_call_id)
          then "result" else "pending") := by
  intro db tid mid step
  refine ⟨?_, ?_, ?_⟩
  · intro hme rows
    rcases db with ⟨me, te⟩
    cases me with
    | none => cases hme
    | some e =>
      unfold onStepFinishRun
      split
      · simp
      · simp
  · intro hme hcalls
    rcases db with ⟨me, te⟩
    cases me with
    | some e => cases hme
    | none =>
      unfold onStepFinishRun
      rw [if_neg (by simpa using hcalls)]
      unfold saveToolOutputs
      cases te <;> rfl
  · intro row hrow
    unfold outputsOf at hrow
    rw [List.mem_map] at hrow
    obtain ⟨rec, hrec, rfl⟩ := hrow
    unfold toolCallsWithResults at hrec
    rw [List.mem_map] at hrec
    obtain ⟨call, hcall, rfl⟩ := hrec
    have hiso := find?_isSome_eq_any
      (fun r => r.toolCallId == call.toolCallId) step.toolResults
    cases hany : step.toolResults.any (fun r => r.toolCallId == call.toolCallId) with
    | false =>
      rw [hany] at hiso
      simp only [jsOrString]
      rw [hiso]
      simp
    | true =>
      rw [hany] at hiso
      simp only [jsOrString]
      rw [hiso]
      simp

/-- Witness for claim C10 at concrete inputs. -/
theorem onStepFinish_persistence_gated_and_states_witness :
    DbOp.insertToolOutputs [] ∉
      (onStepFinishRun ⟨some "boom", none⟩ none "m1"
        ⟨"t", [⟨"c1", "toolA", "p"⟩], []⟩).2 ∧
    (onStepFinishRun ⟨none, none⟩ none "m1"
        ⟨"t", [⟨"c1", "toolA", "p"⟩], [⟨"c1", some "r"⟩]⟩).2 =
      [DbOp.insertMessage "m1" none "assistant" "t",
       DbOp.insertToolOutputs
         (outputsOf "m1" (toolCallsWithResults ⟨"t", [⟨"c1", "toolA", "p"⟩], [⟨"c1", some "r"⟩]⟩))] ∧
    (⟨"m1", "toolA", "c1", "p", some "r", "result"⟩ : ToolOutputRow).state =
      if ([(⟨"c1", some "r"⟩ : ToolResult)].any (fun r => r.toolCallId == "c1"))
        then "result" else "pending" :=
  ⟨(onStepFinish_persistence_gated_and_states ⟨some "boom", none⟩ none "m1"
      ⟨"t", [⟨"c1", "toolA", "p"⟩], []⟩).1 rfl [],
   (onStepFinish_persistence_gated_and_states ⟨none, none⟩ none "m1"
      ⟨"t", [⟨"c1", "toolA", "p"⟩], [⟨"c1", some "r"⟩]⟩).2.1 rfl (by decide),
   (onStepFinish_persistence_gated_and_states ⟨none, none⟩ none "m1"
      ⟨"t", [⟨"c1", "toolA", "p"⟩], [⟨"c1", some "r"⟩]⟩).2.2
     ⟨"m1", "toolA", "c1", "p", some "r", "result"⟩ (by decide)⟩

/-- Claim C8, counterexample: an error whose message contains the
stream-finish-error marker but no opening brace is not answered with
code `STREAM_FINISH_ERROR` — the guarded block falls through and the
response carries the generic code `STREAM_ERROR`. -/
theorem stream_finish_marker_without_brace_misclassified :
    isStreamFinishError ⟨.plainError, "STREAM_FINISH_ERROR"⟩ = true ∧
    (classifyStreamError (fun _ => none) "2024-01-01T00:00:00.000Z" false
      ⟨.plainError, "STREAM_FINISH_ERROR"⟩).code = "STREAM_ERROR" ∧
    "STREAM_ERROR" ≠ "STREAM_FINISH_ERROR" :=
  ⟨by decide, by decide, by decide⟩

/-- Claim C8 (amended): for an error at the streaming boundary whose
message contains the stream-finish-error marker and an opening brace,
the response is a recoverable 500 with code `STREAM_FINISH_ERROR` — with
the parsed structured payload (finish reason, usage, timestamp) when the
trailing fragment parses, and with the raw message when it does not; a
marker message with no brace instead falls through to the later
classification branches (see the counterexample). -/
theorem stream_finish_error_with_brace_classified :
    ∀ (parseJson : String → Option StreamFinishPayload) (now : String)
      (streamErrorRecorded : Bool) (e : JsErr) (i : Nat),
      isStreamFinishError e = true →
      firstBraceIndex e.message = some i →
      (classifyStreamError parseJson now streamErrorRecorded e).status = 500 ∧
      (classifyStreamError parseJson now streamErrorRecorded e).code = "STREAM_FINISH_ERROR" ∧
      (classifyStreamError parseJson now streamErrorRecorded e).recoverable = some true ∧
      (∀ d, parseJson (String.mk (e.message.data.drop i)) = some d →
        (classifyStreamError parseJson now streamErrorRecorded e).finishReason =
          some (jsOrString d.finishReason "error") ∧
        (classifyStreamError parseJson now streamErrorRecorded e).usage =
          some (d.usage.getD ⟨0, 0⟩) ∧
        (classifyStreamError parseJson now streamErrorRecorded e).timestamp =
          some (jsOrString d.timestamp now)) ∧
      (parseJson (String.mk (e.message.data.drop i)) = none →
        (classifyStreamError parseJson now streamErrorRecorded e).message = some e.message) := by
  intro parseJson now rec e i h hb
  cases hp : parseJson (String.mk (e.message.data.drop i)) with
  | some d0 =>
    have hr : classifyStreamError parseJson now rec e =
        ⟨500, "AI Stream Error", "STREAM_FINISH_ERROR", some true,
          some "The AI stream ended unexpectedly", none,
          some (jsOrString d0.finishReason "error"),
          some (d0.usage.getD ⟨0, 0⟩),
          some (jsOrString d0.timestamp now)⟩ := by
      unfold classifyStreamError
      rw [if_pos h, hb]
      simp only []
      rw [hp]
    rw [hr]
    refine ⟨rfl, rfl, rfl, ?_, ?_⟩
    · intro d hd
      injection hd with hd
      subst hd
      exact ⟨rfl, rfl, rfl⟩
    · intro h0
      cases h0
  | none =>
    have hr : classifyStreamError parseJson now rec e =
        ⟨500, "AI Stream Error", "STREAM_FINISH_ERROR", some true,
          some "The AI stream ended unexpectedly (parsing error)",
          some e.message, none, none, none⟩ := by
      unfold classifyStreamError
      rw [if_pos h, hb]
      simp only []
      rw [hp]
    rw [hr]
    refine ⟨rfl, rfl, rfl, ?_, fun _ => rfl⟩
    intro d hd
    cases hd

/-- Witness for the amended claim C8 at a concrete input whose trailing
fragment does not parse. -/
theorem stream_finish_error_with_brace_classified_witness :
    (classifyStreamError (fun _ => none) "2024-01-01T00:00:00.000Z" false
      ⟨.plainError, "STREAM_FINISH_ERROR: \x7b bad"⟩).code = "STREAM_FINISH_ERROR" ∧
    (classifyStreamError (fun _ => none) "2024-01-01T00:00:00.000Z" false
      ⟨.plainError, "STREAM_FINISH_ERROR: \x7b bad"⟩).message =
        some "STREAM_FINISH_ERROR: \x7b bad" :=
  ⟨(stream_finish_error_with_brace_classified (fun _ => none) "2024-01-01T00:00:00.000Z" false
      ⟨.plainError, "STREAM_FINISH_ERROR: \x7b bad"⟩ 21 (by decide) (by decide)).2.1,
   (stream_finish_error_with_brace_classified (fun _ => none) "2024-01-01T00:00:00.000Z" false
      ⟨.plainError, "STREAM_FINISH_ERROR: \x7b bad"⟩ 21 (by decide) (by decide)).2.2.2.2 rfl⟩

end GenChat
